import Mathlib

/-!
# Verification of the lego-sorter remote-execution pipeline

Shallow embedding of the control logic of `run_lego_sorter.py`,
`utils/blender_mcp_client.py`, `blender/render_snapshot.py` and
`blender/diagnose_raycast_frame20.py`, with theorems settling the
behavioural claims about retry policy, timeout handling, response
parsing, wire format, environment-variable handling, output layout,
vector normalisation, and the camera dolly loop.

External effects (sockets, wall-clock time, the Blender host API, the
Python `json` module) are modelled as oracle parameters; everything the
repository's own code computes is translated directly from the source.
-/

namespace LegoSorter

/-! ## `run_with_retries` (run_lego_sorter.py, lines 22-38)

The loop `for i in range(1, attempts + 1)` calls
`client.execute_script_file` once per iteration; on failure with
`i < attempts` it sleeps `2 ** i` seconds and retries.  We record the
observable events (calls and sleeps) together with the returned bool. -/

/-- An observable event of `run_with_retries`: one invocation of
`client.execute_script_file`, or one `time.sleep(seconds)`. -/
inductive RetryEvent where
  | call
  | sleep (seconds : Nat)
deriving DecidableEq, Repr

/-- Body of the `for i in range(1, attempts + 1)` loop of
`run_with_retries`, started at iteration `i`.  `execOk j` is the result
of the `j`-th call to `client.execute_script_file`. -/
def runWithRetriesLoop (execOk : Nat → Bool) (attempts : Nat) (i : Nat) :
    List RetryEvent × Bool :=
  if h : i ≤ attempts then
    if execOk i then ([RetryEvent.call], true)
    else if i < attempts then
      let rest := runWithRetriesLoop execOk attempts (i + 1)
      (RetryEvent.call :: RetryEvent.sleep (2 ^ i) :: rest.1, rest.2)
    else ([RetryEvent.call], false)
  else ([], false)
termination_by attempts + 1 - i
decreasing_by omega

/-- `run_with_retries(client, script, desc, attempts, timeout)`: the loop
starts at `i = 1`; returns the event trace and the boolean result. -/
def run_with_retries (execOk : Nat → Bool) (attempts : Nat) :
    List RetryEvent × Bool :=
  runWithRetriesLoop execOk attempts 1

/-- Number of `execute_script_file` invocations in a trace. -/
def callCount (evs : List RetryEvent) : Nat :=
  evs.countP (fun e => match e with | RetryEvent.call => true | _ => false)

/-- The sleep durations of a trace, in order. -/
def sleepTimes : List RetryEvent → List Nat
  | [] => []
  | RetryEvent.call :: rest => sleepTimes rest
  | RetryEvent.sleep s :: rest => s :: sleepTimes rest

/-- The trace produced when every attempt fails, starting at attempt `i`
with `n` attempts to go: `call, sleep 2^i, call, sleep 2^(i+1), …, call`. -/
def failTrace : Nat → Nat → List RetryEvent
  | _, 0 => []
  | _, 1 => [RetryEvent.call]
  | i, n + 2 => RetryEvent.call :: RetryEvent.sleep (2 ^ i) :: failTrace (i + 1) (n + 1)

theorem runWithRetriesLoop_fail (execOk : Nat → Bool) (hfail : ∀ j, execOk j = false) :
    ∀ n i, runWithRetriesLoop execOk (i + n) i = (failTrace i (n + 1), false) := by
  intro n
  induction n with
  | zero =>
    intro i
    rw [runWithRetriesLoop]
    simp [hfail, failTrace]
  | succ n ih =>
    intro i
    rw [runWithRetriesLoop]
    have h1 : i ≤ i + (n + 1) := by omega
    have h2 : i < i + (n + 1) := by omega
    have h3 : i + (n + 1) = (i + 1) + n := by omega
    simp only [h1, dif_pos, hfail, if_false, h2, if_pos, Bool.false_eq_true]
    rw [h3, ih (i + 1)]
    rfl

theorem callCount_failTrace : ∀ n i, callCount (failTrace i (n + 1)) = n + 1 := by
  intro n
  induction n with
  | zero => intro i; rfl
  | succ n ih =>
    intro i
    show callCount (RetryEvent.call :: RetryEvent.sleep (2 ^ i) :: failTrace (i + 1) (n + 1)) = n + 2
    have h := ih (i + 1)
    simp [callCount, List.countP_cons] at h ⊢
    omega

theorem sleepTimes_failTrace :
    ∀ n i, sleepTimes (failTrace i (n + 1)) =
      (List.range n).map (fun j => 2 ^ (i + j)) := by
  intro n
  induction n with
  | zero => intro i; rfl
  | succ n ih =>
    intro i
    show sleepTimes (RetryEvent.call :: RetryEvent.sleep (2 ^ i) :: failTrace (i + 1) (n + 1)) = _
    rw [sleepTimes, sleepTimes, ih (i + 1), List.range_succ_eq_map]
    simp [List.map_map, Function.comp]
    intro a _
    omega

theorem failTrace_concat :
    ∀ n i, ∃ l, failTrace i (n + 1) = l ++ [RetryEvent.call] := by
  intro n
  induction n with
  | zero => intro i; exact ⟨[], rfl⟩
  | succ n ih =>
    intro i
    obtain ⟨l, hl⟩ := ih (i + 1)
    refine ⟨RetryEvent.call :: RetryEvent.sleep (2 ^ i) :: l, ?_⟩
    show RetryEvent.call :: RetryEvent.sleep (2 ^ i) :: failTrace (i + 1) (n + 1) = _
    rw [hl]
    rfl

theorem getLast_failTrace :
    ∀ n i, (failTrace i (n + 1)).getLast? = some RetryEvent.call := by
  intro n i
  obtain ⟨l, hl⟩ := failTrace_concat n i
  rw [hl, List.getLast?_concat]

/-- C1: for `N ≥ 1` attempts and a script failing on every try,
`run_with_retries` calls `execute_script_file` exactly `N` times, sleeps
`2^i` seconds after the `i`-th failed attempt for `i = 1, …, N-1` (a
strictly increasing sequence, with no sleep after the last attempt), and
returns `false`. -/
theorem retry_policy_on_failure (execOk : Nat → Bool) (N : Nat)
    (hN : 1 ≤ N) (hfail : ∀ i, execOk i = false) :
    (run_with_retries execOk N).2 = false ∧
    callCount (run_with_retries execOk N).1 = N ∧
    sleepTimes (run_with_retries execOk N).1 =
      (List.range (N - 1)).map (fun j => 2 ^ (1 + j)) ∧
    List.Chain' (· < ·) (sleepTimes (run_with_retries execOk N).1) ∧
    (run_with_retries execOk N).1.getLast? = some RetryEvent.call := by
  obtain ⟨n, rfl⟩ : ∃ n, N = n + 1 := ⟨N - 1, by omega⟩
  have hrun : run_with_retries execOk (n + 1) = (failTrace 1 (n + 1), false) := by
    have h := runWithRetriesLoop_fail execOk hfail n 1
    rw [show 1 + n = n + 1 by omega] at h
    rw [run_with_retries, h]
  refine ⟨by rw [hrun], ?_, ?_, ?_, ?_⟩
  · rw [hrun]
    exact callCount_failTrace n 1
  · rw [hrun]
    show sleepTimes (failTrace 1 (n + 1)) = _
    rw [sleepTimes_failTrace n 1]
    simp
  · rw [hrun]
    show List.Chain' (· < ·) (sleepTimes (failTrace 1 (n + 1)))
    rw [sleepTimes_failTrace n 1]
    apply List.Pairwise.chain'
    rw [List.pairwise_map]
    refine (List.pairwise_lt_range n).imp ?_
    intro a b hab
    exact Nat.pow_lt_pow_right (by norm_num) (by omega)
  · rw [hrun]
    exact getLast_failTrace n 1

/-- Concrete instantiation of `retry_policy_on_failure` at `N = 3` with an
always-failing execution oracle. -/
theorem retry_policy_on_failure_witness :
    1 ≤ 3 ∧
    ((run_with_retries (fun _ => false) 3).2 = false ∧
     callCount (run_with_retries (fun _ => false) 3).1 = 3 ∧
     sleepTimes (run_with_retries (fun _ => false) 3).1 =
       (List.range (3 - 1)).map (fun j => 2 ^ (1 + j)) ∧
     List.Chain' (· < ·) (sleepTimes (run_with_retries (fun _ => false) 3).1) ∧
     (run_with_retries (fun _ => false) 3).1.getLast? = some RetryEvent.call) :=
  ⟨by decide, retry_policy_on_failure (fun _ => false) 3 (by decide) (fun _ => rfl)⟩

/-! ## BlenderMCPClient (utils/blender_mcp_client.py)

Sockets, wall-clock time and the Python `json` module are oracles; the
client's own control flow (lines 27-183) is translated directly. -/

/-- The value space of the Python `json` module (numbers as integers;
the protocol only exchanges strings, objects and status fields). -/
inductive Json where
  | null
  | bool (b : Bool)
  | num (n : Int)
  | str (s : String)
  | arr (elems : List Json)
  | obj (fields : List (String × Json))
deriving Repr

/-- `dict.get(key)` on a parsed JSON object (parsed dicts have unique
keys, so first binding wins). -/
def pyGet (fields : List (String × Json)) (key : String) : Option Json :=
  (fields.find? (fun kv => kv.1 == key)).map (fun kv => kv.2)

/-- Python truthiness of a JSON value (`if result_data:`). -/
def truthy : Json → Bool
  | Json.null => false
  | Json.bool b => b
  | Json.num n => n != 0
  | Json.str s => s != ""
  | Json.arr xs => xs.length != 0
  | Json.obj kvs => kvs.length != 0

/-- Python `s.replace("\\n", "\n")`: each literal backslash-n pair
becomes a newline, scanning left to right. -/
def replaceEscapedNewlines : List Char → List Char
  | [] => []
  | '\\' :: 'n' :: rest => '\n' :: replaceEscapedNewlines rest
  | c :: rest => c :: replaceEscapedNewlines rest

def pyReplaceNewline (s : String) : String :=
  String.mk (replaceEscapedNewlines s.toList)

/-- Whitespace stripped by Python `bytes.strip()`. -/
def pyIsSpace (c : Char) : Bool :=
  c = ' ' || c = '\t' || c = '\n' || c = '\r' || c = '\x0b' || c = '\x0c'

/-- Python `bytes.strip()` / `str.strip()`: drop surrounding whitespace. -/
def pyStrip (s : String) : String :=
  String.mk (((s.toList.dropWhile pyIsSpace).reverse.dropWhile pyIsSpace).reverse)

/-- What `execute_code` prints for a payload: a string formatted through
the backslash-n replacement, or the raw value. -/
inductive DisplayVal where
  | formatted (s : String)
  | raw (j : Json)
deriving Repr

/-- The value reported after a `status: success` response (lines
146-161): `result.get("result", "No result message")`, skipped when
falsy, with a nested dict's inner `result` string unwrapped. -/
def successDisplay (fields : List (String × Json)) : Option DisplayVal :=
  let resultData := (pyGet fields "result").getD (Json.str "No result message")
  if truthy resultData then
    some (match resultData with
      | Json.obj inner =>
        match pyGet inner "result" with
        | some (Json.str s) => DisplayVal.formatted (pyReplaceNewline s)
        | some j => DisplayVal.raw j
        | none => DisplayVal.raw (Json.obj inner)
      | Json.str s => DisplayVal.formatted (pyReplaceNewline s)
      | j => DisplayVal.raw j)
  else none

/-- The error reported for a non-success response (lines 164-170):
`result.get("message", "Unknown error")`, formatted when a string. -/
def errorDisplay (fields : List (String × Json)) : DisplayVal :=
  match (pyGet fields "message").getD (Json.str "Unknown error") with
  | Json.str s => DisplayVal.formatted (pyReplaceNewline s)
  | j => DisplayVal.raw j

/-- `result.get("status") == "success"` (line 144): true exactly when
the field is present and is the string `success`. -/
def statusIsSuccess (fields : List (String × Json)) : Bool :=
  match pyGet fields "status" with
  | some (Json.str s) => s == "success"
  | _ => false

/-- Python exceptions that can escape the `try` body of `execute_code`.
The `TimeoutError` raised on an empty response is the same class as
`socket.timeout` on Python 3.10+, so both land in the timeout handler. -/
inductive PyExn where
  | connRefused
  | jsonDecodeError (text : String)
  | attrError
deriving Repr

/-- The classification of one `execute_code` call: the returned bool is
`true` exactly for `success`; everything else prints an error. -/
inductive ExecReport where
  | success (displayed : Option DisplayVal)
  | remoteError (displayed : DisplayVal)
  | timeoutError (seconds : Int)
  | genericError (e : PyExn)
deriving Repr

/-- `_effective_timeout` (lines 39-43): parameter wins over the stored
client timeout. -/
def effectiveTimeout (selfTimeout : Int) (timeout : Option Int) : Int :=
  match timeout with
  | some t => t
  | none => selfTimeout

/-- One outcome of `sock.recv(8192)` in the receive loop, with the wall
clock time it consumed.  On `timeout` the elapsed time is the per
iteration socket timeout that was just set. -/
inductive RecvEvent where
  | timeout
  | chunk (data : String) (elapsed : ℚ)
  | closed (elapsed : ℚ)

/-- `b"\n" in buffer`. -/
def hasNewline (s : String) : Bool := s.toList.contains '\n'

/-- `buffer.split(b"\n", 1)[0]`: the prefix before the first newline. -/
def beforeNewline (s : String) : String :=
  String.mk (s.toList.takeWhile (fun c => c != '\n'))

/-- How the receive loop (lines 94-134) exits. -/
inductive LoopExit where
  | deadlineHit
  | line (text : String)
  | fullBuffer (text : String)
  | connClosed (text : String)
deriving Repr

/-- The receive polling loop of `execute_code` (lines 94-134).  `recv i`
is the oracle for the `i`-th call to `sock.recv`; `parse` models
`json.loads` (`some` = parsed value, `none` = raises); `fuel` bounds the
number of modelled iterations (`none` = fuel ran out before the loop
exited).  Heartbeat prints do not affect control flow and are omitted. -/
def recvLoop (parse : String → Option Json) (recv : Nat → RecvEvent)
    (deadline : ℚ) : Nat → Nat → ℚ → String → Option LoopExit
  | 0, _, _, _ => none
  | fuel + 1, i, now, buffer =>
    if deadline ≤ now then some LoopExit.deadlineHit
    else
      let iterTimeout := max (1/2 : ℚ) (min 2 (deadline - now))
      match recv i with
      | RecvEvent.timeout =>
        recvLoop parse recv deadline fuel (i + 1) (now + iterTimeout) buffer
      | RecvEvent.closed _ => some (LoopExit.connClosed (pyStrip buffer))
      | RecvEvent.chunk data elapsed =>
        let buffer' := buffer ++ data
        if hasNewline buffer' then
          some (LoopExit.line (pyStrip (beforeNewline buffer')))
        else
          let tentative := pyStrip buffer'
          if tentative.startsWith "\x7b" && tentative.endsWith "\x7d"
              && (parse tentative).isSome then
            some (LoopExit.fullBuffer tentative)
          else
            recvLoop parse recv deadline fuel (i + 1) (now + elapsed) buffer'

/-- Response handling after the loop produced `response_text` (lines
138-171): empty text raises `TimeoutError`; `json.loads` failure raises;
a non-dict makes `.get` raise `AttributeError`; otherwise the status
dichotomy of lines 144-171 applies. -/
def finishResponse (parse : String → Option Json) (text : String)
    (effTimeout : Int) : Bool × ExecReport :=
  if text = "" then (false, ExecReport.timeoutError effTimeout)
  else match parse text with
    | none => (false, ExecReport.genericError (PyExn.jsonDecodeError text))
    | some (Json.obj fields) =>
      if statusIsSuccess fields then
        (true, ExecReport.success (successDisplay fields))
      else
        (false, ExecReport.remoteError (errorDisplay fields))
    | some _ => (false, ExecReport.genericError PyExn.attrError)

/-- The socket/JSON environment of one `execute_code` call. -/
structure SocketEnv where
  connectRefused : Bool
  recv : Nat → RecvEvent
  parse : String → Option Json

/-- Everything after a successful `sock.connect`: run the receive loop
from time `0` with deadline `effTimeout`, then classify. -/
def execBody (env : SocketEnv) (effTimeout : Int) (fuel : Nat) :
    Option (Bool × ExecReport) :=
  match recvLoop env.parse env.recv (effTimeout : ℚ) fuel 0 0 "" with
  | none => none
  | some LoopExit.deadlineHit => some (false, ExecReport.timeoutError effTimeout)
  | some (LoopExit.line t) => some (finishResponse env.parse t effTimeout)
  | some (LoopExit.fullBuffer t) => some (finishResponse env.parse t effTimeout)
  | some (LoopExit.connClosed t) => some (finishResponse env.parse t effTimeout)

/-- The command dict built at line 81. -/
def commandJson (code : String) : Json :=
  Json.obj [("type", Json.str "execute_code"),
            ("params", Json.obj [("code", Json.str code)])]

/-- Hexadecimal digit, lower case (as Python's `json` emits). -/
def hexDigit (n : Nat) : Char :=
  if n < 10 then Char.ofNat (48 + n) else Char.ofNat (87 + n)

def hex4 (n : Nat) : String :=
  String.mk [hexDigit (n / 4096 % 16), hexDigit (n / 256 % 16),
             hexDigit (n / 16 % 16), hexDigit (n % 16)]

/-- `json.dumps` escaping of one character inside a string literal,
with `ensure_ascii=False` (non-ASCII passes through). -/
def jsonEscapeChar (c : Char) : String :=
  if c = '"' then "\\\""
  else if c = '\\' then "\\\\"
  else if c = '\n' then "\\n"
  else if c = '\r' then "\\r"
  else if c = '\t' then "\\t"
  else if c = '\x08' then "\\b"
  else if c = '\x0c' then "\\f"
  else if c.toNat < 32 then "\\u" ++ hex4 c.toNat
  else String.singleton c

def jsonQuote (s : String) : String :=
  "\"" ++ String.join (s.toList.map jsonEscapeChar) ++ "\""

mutual
/-- `json.dumps(v, ensure_ascii=False)` with the default separators
`", "` and `": "` (line 84). -/
def jsonDumps : Json → String
  | Json.null => "null"
  | Json.bool true => "true"
  | Json.bool false => "false"
  | Json.num n => toString n
  | Json.str s => jsonQuote s
  | Json.arr xs => "[" ++ jsonDumpsArr xs ++ "]"
  | Json.obj kvs => "\x7b" ++ jsonDumpsObj kvs ++ "\x7d"

def jsonDumpsArr : List Json → String
  | [] => ""
  | [x] => jsonDumps x
  | x :: y :: xs => jsonDumps x ++ ", " ++ jsonDumpsArr (y :: xs)

def jsonDumpsObj : List (String × Json) → String
  | [] => ""
  | [(k, v)] => jsonQuote k ++ ": " ++ jsonDumps v
  | (k, v) :: kv :: kvs =>
    jsonQuote k ++ ": " ++ jsonDumps v ++ ", " ++ jsonDumpsObj (kv :: kvs)
end

/-- UTF-8 encoding of one scalar value, as byte values below 256. -/
def utf8Char (c : Char) : List Nat :=
  let n := c.toNat
  if n < 128 then [n]
  else if n < 2048 then [192 + n / 64, 128 + n % 64]
  else if n < 65536 then [224 + n / 4096, 128 + n / 64 % 64, 128 + n % 64]
  else [240 + n / 262144, 128 + n / 4096 % 64, 128 + n / 64 % 64, 128 + n % 64]

/-- `message.encode("utf-8", errors="replace")`; a valid Unicode string
never triggers the replacement path. -/
def utf8Encode (s : String) : List Nat :=
  (s.toList.map utf8Char).flatten

/-- The result of one modelled `execute_code` call: returned bool, what
was reported, and the exact byte strings passed to `sock.sendall`. -/
structure ExecResult where
  ret : Bool
  report : ExecReport
  sent : List (List Nat)

/-- `execute_code` (lines 65-183).  A refused connection is caught by
the generic handler before anything is sent; otherwise the single
`sendall` of line 85 transmits the whole newline-terminated message. -/
def execute_code (env : SocketEnv) (code : String) (timeout : Option Int)
    (selfTimeout : Int) (fuel : Nat) : Option ExecResult :=
  let effT := effectiveTimeout selfTimeout timeout
  if env.connectRefused then
    some ⟨false, ExecReport.genericError PyExn.connRefused, []⟩
  else
    match execBody env effT fuel with
    | none => none
    | some (b, r) =>
      some ⟨b, r, [utf8Encode (jsonDumps (commandJson code) ++ "\n")]⟩

/-- `BlenderMCPClient.__init__` (lines 27-37); `none` arguments are the
Python defaults.  `envTimeout` is `BLENDER_MCP_TIMEOUT` already through
`int(...)` (the claims only concern integer-string values; an unset or
empty variable is `none`). -/
structure BlenderMCPClient where
  host : String
  port : Int
  timeout : Int

def clientInit (host : Option String) (port : Option Int)
    (timeout : Option Int) (envTimeout : Option Int) : BlenderMCPClient :=
  ⟨host.getD "localhost", port.getD 9876,
   match timeout with
   | some t => t
   | none =>
     match envTimeout with
     | some v => v
     | none => 180⟩

/-! ### Receive-loop lemmas -/

theorem string_toList_append (a b : String) :
    (a ++ b).toList = a.toList ++ b.toList := by
  cases a; cases b; rfl

theorem hasNewline_append (a b : String) :
    hasNewline (a ++ b) = (hasNewline a || hasNewline b) := by
  simp [hasNewline, string_toList_append, List.contains_eq_any_beq]

theorem no_newline_all (l : List Char) (h : l.contains '\n' = false) :
    ∀ c ∈ l, (c != '\n') = true := by
  intro c hc
  simp only [List.contains_eq_any_beq, List.any_eq_false] at h
  simp [bne]
  intro hh
  exact h c hc (by simp [hh])

theorem takeWhile_before_newline (l : List Char)
    (hall : ∀ c ∈ l, (c != '\n') = true) :
    (l ++ ['\n']).takeWhile (fun c => c != '\n') = l := by
  induction l with
  | nil => rfl
  | cons c cs ih =>
    have hc : (c != '\n') = true := hall c (by simp)
    simp only [List.cons_append, List.takeWhile_cons, hc, if_true]
    rw [ih (fun d hd => hall d (by simp [hd]))]

theorem beforeNewline_append (raw : String) (h : hasNewline raw = false) :
    beforeNewline (raw ++ "\n") = raw := by
  unfold beforeNewline
  rw [string_toList_append]
  rw [show ("\n" : String).toList = ['\n'] from rfl]
  rw [takeWhile_before_newline raw.toList (no_newline_all _ h)]
  rfl

/-- When the server never completes a response (no close, chunks carry
no newline and never parse as JSON, each step consumes at least `dmin`
time), the loop hits the deadline check and raises. -/
theorem recvLoop_reaches_deadline (parse : String → Option Json)
    (recv : Nat → RecvEvent) (deadline dmin : ℚ)
    (hdhalf : dmin ≤ 1/2)
    (hnc : ∀ i e, recv i ≠ RecvEvent.closed e)
    (hch : ∀ i d e, recv i = RecvEvent.chunk d e →
      hasNewline d = false ∧ dmin ≤ e ∧ ∀ s, parse s = none) :
    ∀ (fuel i : Nat) (now : ℚ) buffer, hasNewline buffer = false →
      deadline ≤ now + (fuel : ℚ) * dmin →
      recvLoop parse recv deadline (fuel + 1) i now buffer =
        some LoopExit.deadlineHit := by
  intro fuel
  induction fuel with
  | zero =>
    intro i now buffer hbuf hd
    rw [recvLoop]
    simp only [Nat.cast_zero, zero_mul, add_zero] at hd
    simp [hd]
  | succ fuel ih =>
    intro i now buffer hbuf hd
    rw [recvLoop]
    by_cases hnow : deadline ≤ now
    · simp [hnow]
    · rw [if_neg hnow]
      cases hrecv : recv i with
      | timeout =>
        apply ih
        · exact hbuf
        · have h1 : (1/2 : ℚ) ≤ max (1/2 : ℚ) (min 2 (deadline - now)) :=
            le_max_left _ _
          push_cast at hd ⊢
          linarith
      | closed e => exact absurd hrecv (hnc i e)
      | chunk d e =>
        obtain ⟨hdnl, hde, hparse⟩ := hch i d e hrecv
        have hbuf' : hasNewline (buffer ++ d) = false := by
          rw [hasNewline_append, hbuf, hdnl]
          rfl
        have hps : (parse (pyStrip (buffer ++ d))).isSome = false := by
          rw [hparse]
          rfl
        simp only [hbuf', Bool.false_eq_true, if_false, hps, Bool.and_false]
        apply ih
        · exact hbuf'
        · push_cast at hd ⊢
          linarith

/-- When the very first `recv` delivers a newline-terminated payload
before the deadline, the loop exits with that stripped line. -/
theorem recvLoop_first_line (parse : String → Option Json)
    (recv : Nat → RecvEvent) (deadline : ℚ) (fuel : Nat) (raw : String)
    (e : ℚ)
    (h0 : recv 0 = RecvEvent.chunk (raw ++ "\n") e)
    (hnl : hasNewline raw = false)
    (hpos : 0 < deadline) :
    recvLoop parse recv deadline (fuel + 1) 0 0 "" =
      some (LoopExit.line (pyStrip raw)) := by
  rw [recvLoop]
  rw [if_neg (not_le.mpr hpos), h0]
  have hb : ("" ++ (raw ++ "\n") : String) = raw ++ "\n" := rfl
  have hnew : hasNewline (raw ++ "\n") = true := by
    rw [hasNewline_append, hnl]
    rfl
  simp only [hb, hnew, if_true, beforeNewline_append raw hnl]

/-- A connected `execute_code` call whose first `recv` yields a
newline-terminated response reduces to `finishResponse` on the stripped
line, with the single full message sent. -/
theorem execute_code_line_response (env : SocketEnv) (code : String)
    (timeout : Option Int) (selfTimeout : Int) (fuel : Nat) (raw : String)
    (e : ℚ)
    (hconn : env.connectRefused = false)
    (h0 : env.recv 0 = RecvEvent.chunk (raw ++ "\n") e)
    (hnl : hasNewline raw = false)
    (hpos : 0 < effectiveTimeout selfTimeout timeout) :
    execute_code env code timeout selfTimeout (fuel + 1) =
      some ⟨(finishResponse env.parse (pyStrip raw)
               (effectiveTimeout selfTimeout timeout)).1,
            (finishResponse env.parse (pyStrip raw)
               (effectiveTimeout selfTimeout timeout)).2,
            [utf8Encode (jsonDumps (commandJson code) ++ "\n")]⟩ := by
  have hloop := recvLoop_first_line env.parse env.recv
    (effectiveTimeout selfTimeout timeout : ℚ) fuel raw e h0 hnl
    (by exact_mod_cast hpos)
  simp [execute_code, execBody, hconn, hloop]

theorem statusIsSuccess_iff (fields : List (String × Json)) :
    statusIsSuccess fields = true ↔
      pyGet fields "status" = some (Json.str "success") := by
  unfold statusIsSuccess
  cases h : pyGet fields "status" with
  | none => simp
  | some j => cases j <;> simp_all

/-! ### The claims about `execute_code` -/

/-- C2: when no complete response arrives (nothing closes the socket, no
chunk completes a line or a parsable buffer) and every receive step
takes at least `dmin > 0` wall-clock time, the polling loop terminates
once the deadline (start time plus the effective timeout) is reached:
the internal `socket.timeout` is raised, caught, a timeout error is
reported and the call returns `false`. -/
theorem execute_code_times_out (env : SocketEnv) (code : String)
    (timeout : Option Int) (selfTimeout : Int) (fuel : Nat) (dmin : ℚ)
    (hconn : env.connectRefused = false)
    (hnc : ∀ i e, env.recv i ≠ RecvEvent.closed e)
    (hch : ∀ i d e, env.recv i = RecvEvent.chunk d e →
      hasNewline d = false ∧ dmin ≤ e ∧ ∀ s, env.parse s = none)
    (hfuel : (effectiveTimeout selfTimeout timeout : ℚ) ≤
      fuel * min dmin (1/2)) :
    execute_code env code timeout selfTimeout (fuel + 1) =
      some ⟨false,
            ExecReport.timeoutError (effectiveTimeout selfTimeout timeout),
            [utf8Encode (jsonDumps (commandJson code) ++ "\n")]⟩ := by
  have hloop := recvLoop_reaches_deadline env.parse env.recv
    (effectiveTimeout selfTimeout timeout : ℚ) (min dmin (1/2))
    (min_le_right _ _) hnc
    (fun i d e h => ⟨(hch i d e h).1,
      le_trans (min_le_left _ _) (hch i d e h).2.1, (hch i d e h).2.2⟩)
    fuel 0 0 "" rfl (by simpa using hfuel)
  simp [execute_code, execBody, hconn, hloop]

/-- Environment where the server never answers: every `recv` times out. -/
def silentEnv : SocketEnv :=
  ⟨false, fun _ => RecvEvent.timeout, fun _ => none⟩

/-- Concrete instantiation of `execute_code_times_out`: a 3-second
effective timeout, every `recv` timing out, 7 loop iterations. -/
theorem execute_code_times_out_witness :
    silentEnv.connectRefused = false ∧
    (∀ i e, silentEnv.recv i ≠ RecvEvent.closed e) ∧
    ((effectiveTimeout 180 (some 3) : ℚ) ≤ 6 * min (1/2) (1/2)) ∧
    execute_code silentEnv "x" (some 3) 180 7 =
      some ⟨false, ExecReport.timeoutError 3,
            [utf8Encode (jsonDumps (commandJson "x") ++ "\n")]⟩ := by
  refine ⟨rfl, ?_, by norm_num [effectiveTimeout], ?_⟩
  · intro i e h
    simp [silentEnv] at h
  · exact execute_code_times_out silentEnv "x" (some 3) 180 6 (1/2) rfl
      (fun i e h => by simp [silentEnv] at h)
      (fun i d e h => by simp [silentEnv] at h)
      (by norm_num [effectiveTimeout])

/-- C3: for a response text parsing as a JSON object, `execute_code`
returns `true` exactly when the object's `status` field is the string
`success`; then it reports the `result` payload, and otherwise it
reports the `message` string, defaulting to `Unknown error`. -/
theorem execute_code_status_dichotomy (env : SocketEnv) (code : String)
    (timeout : Option Int) (selfTimeout : Int) (fuel : Nat) (raw : String)
    (e : ℚ) (fields : List (String × Json))
    (hconn : env.connectRefused = false)
    (h0 : env.recv 0 = RecvEvent.chunk (raw ++ "\n") e)
    (hnl : hasNewline raw = false)
    (hpos : 0 < effectiveTimeout selfTimeout timeout)
    (hne : pyStrip raw ≠ "")
    (hjson : env.parse (pyStrip raw) = some (Json.obj fields)) :
    ∃ res, execute_code env code timeout selfTimeout (fuel + 1) = some res ∧
      (res.ret = true ↔ pyGet fields "status" = some (Json.str "success")) ∧
      (pyGet fields "status" = some (Json.str "success") →
        res.report = ExecReport.success (successDisplay fields)) ∧
      (pyGet fields "status" ≠ some (Json.str "success") →
        res.report = ExecReport.remoteError (errorDisplay fields)) ∧
      (pyGet fields "message" = none →
        errorDisplay fields = DisplayVal.formatted "Unknown error") := by
  have hrun := execute_code_line_response env code timeout selfTimeout fuel
    raw e hconn h0 hnl hpos
  have hfr : finishResponse env.parse (pyStrip raw)
      (effectiveTimeout selfTimeout timeout) =
      if statusIsSuccess fields then
        (true, ExecReport.success (successDisplay fields))
      else
        (false, ExecReport.remoteError (errorDisplay fields)) := by
    simp [finishResponse, hne, hjson]
  refine ⟨_, hrun, ?_, ?_, ?_, ?_⟩
  · rw [hfr]
    by_cases hs : statusIsSuccess fields = true
    · rw [if_pos hs]
      simpa using (statusIsSuccess_iff fields).mp hs
    · rw [if_neg hs]
      constructor
      · intro hc
        simp at hc
      · intro hc
        exact absurd ((statusIsSuccess_iff fields).mpr hc) hs
  · intro hc
    rw [hfr, if_pos ((statusIsSuccess_iff fields).mpr hc)]
  · intro hc
    have hs : ¬ statusIsSuccess fields = true := fun h =>
      hc ((statusIsSuccess_iff fields).mp h)
    rw [hfr, if_neg hs]
  · intro hmsg
    rw [errorDisplay, hmsg]
    rfl

/-- Environment answering with one newline-terminated response `ok`
whose parse is a `status: success` object carrying a result string. -/
def successEnv : SocketEnv :=
  ⟨false, fun _ => RecvEvent.chunk ("ok" ++ "\n") 0,
   fun s => if s = "ok" then
     some (Json.obj [("status", Json.str "success"),
                     ("result", Json.str "done")])
   else none⟩

/-- Concrete instantiation of `execute_code_status_dichotomy` on
`successEnv`. -/
theorem execute_code_status_dichotomy_witness :
    successEnv.connectRefused = false ∧
    hasNewline "ok" = false ∧
    (0 : Int) < effectiveTimeout 180 (some 5) ∧
    pyStrip "ok" ≠ "" ∧
    successEnv.parse (pyStrip "ok") =
      some (Json.obj [("status", Json.str "success"),
                      ("result", Json.str "done")]) ∧
    (∃ res, execute_code successEnv "x" (some 5) 180 1 = some res ∧
      (res.ret = true ↔
        pyGet [("status", Json.str "success"), ("result", Json.str "done")]
          "status" = some (Json.str "success")) ∧
      (pyGet [("status", Json.str "success"), ("result", Json.str "done")]
          "status" = some (Json.str "success") →
        res.report = ExecReport.success (successDisplay
          [("status", Json.str "success"), ("result", Json.str "done")])) ∧
      (pyGet [("status", Json.str "success"), ("result", Json.str "done")]
          "status" ≠ some (Json.str "success") →
        res.report = ExecReport.remoteError (errorDisplay
          [("status", Json.str "success"), ("result", Json.str "done")])) ∧
      (pyGet [("status", Json.str "success"), ("result", Json.str "done")]
          "message" = none →
        errorDisplay [("status", Json.str "success"),
                      ("result", Json.str "done")] =
          DisplayVal.formatted "Unknown error")) :=
  ⟨rfl, by decide, by decide, by decide, rfl,
   execute_code_status_dichotomy successEnv "x" (some 5) 180 0 "ok" 0
     [("status", Json.str "success"), ("result", Json.str "done")]
     rfl rfl (by decide) (by decide) (by decide) rfl⟩

/-- C4: the three failure modes — connection refused, no response within
the timeout, and an unparsable response — each make `execute_code`
report an error and return `false`; no exception escapes (the model
returns a value in every branch instead of propagating). -/
theorem execute_code_failure_modes :
    (∀ (env : SocketEnv) (code : String) (timeout : Option Int)
       (selfT : Int) (fuel : Nat),
       env.connectRefused = true →
       execute_code env code timeout selfT fuel =
         some ⟨false, ExecReport.genericError PyExn.connRefused, []⟩) ∧
    (∀ (env : SocketEnv) (code : String) (timeout : Option Int)
       (selfT : Int) (fuel : Nat),
       env.connectRefused = false →
       (∀ i, env.recv i = RecvEvent.timeout) →
       (effectiveTimeout selfT timeout : ℚ) ≤ fuel * (1/2 : ℚ) →
       execute_code env code timeout selfT (fuel + 1) =
         some ⟨false, ExecReport.timeoutError (effectiveTimeout selfT timeout),
               [utf8Encode (jsonDumps (commandJson code) ++ "\n")]⟩) ∧
    (∀ (env : SocketEnv) (code : String) (timeout : Option Int)
       (selfT : Int) (fuel : Nat) (raw : String) (e : ℚ),
       env.connectRefused = false →
       env.recv 0 = RecvEvent.chunk (raw ++ "\n") e →
       hasNewline raw = false →
       0 < effectiveTimeout selfT timeout →
       pyStrip raw ≠ "" →
       env.parse (pyStrip raw) = none →
       execute_code env code timeout selfT (fuel + 1) =
         some ⟨false,
               ExecReport.genericError (PyExn.jsonDecodeError (pyStrip raw)),
               [utf8Encode (jsonDumps (commandJson code) ++ "\n")]⟩) := by
  refine ⟨?_, ?_, ?_⟩
  · intro env code timeout selfT fuel hconn
    simp [execute_code, hconn]
  · intro env code timeout selfT fuel hconn hall hfuel
    have hloop := recvLoop_reaches_deadline env.parse env.recv
      (effectiveTimeout selfT timeout : ℚ) (1/2) le_rfl
      (fun i e h => by rw [hall i] at h; exact nomatch h)
      (fun i d e h => by rw [hall i] at h; exact nomatch h)
      fuel 0 0 "" rfl (by simpa using hfuel)
    simp [execute_code, execBody, hconn, hloop]
  · intro env code timeout selfT fuel raw e hconn h0 hnl hpos hne hparse
    have hrun := execute_code_line_response env code timeout selfT fuel
      raw e hconn h0 hnl hpos
    rw [hrun]
    simp [finishResponse, hne, hparse]

/-- Environment whose connect attempt is refused. -/
def refusedEnv : SocketEnv :=
  ⟨true, fun _ => RecvEvent.timeout, fun _ => none⟩

/-- Environment answering one newline-terminated line that `json.loads`
rejects. -/
def badJsonEnv : SocketEnv :=
  ⟨false, fun _ => RecvEvent.chunk ("notjson" ++ "\n") 0, fun _ => none⟩

/-- Concrete instantiations of all three conjuncts of
`execute_code_failure_modes`. -/
theorem execute_code_failure_modes_witness :
    (refusedEnv.connectRefused = true ∧
     execute_code refusedEnv "x" none 180 0 =
       some ⟨false, ExecReport.genericError PyExn.connRefused, []⟩) ∧
    ((∀ i, silentEnv.recv i = RecvEvent.timeout) ∧
     execute_code silentEnv "y" (some 3) 180 7 =
       some ⟨false, ExecReport.timeoutError 3,
             [utf8Encode (jsonDumps (commandJson "y") ++ "\n")]⟩) ∧
    (badJsonEnv.parse (pyStrip "notjson") = none ∧
     pyStrip "notjson" ≠ "" ∧
     execute_code badJsonEnv "z" (some 5) 180 1 =
       some ⟨false,
             ExecReport.genericError (PyExn.jsonDecodeError (pyStrip "notjson")),
             [utf8Encode (jsonDumps (commandJson "z") ++ "\n")]⟩) := by
  refine ⟨⟨rfl, ?_⟩, ⟨fun i => rfl, ?_⟩, rfl, by decide, ?_⟩
  · exact execute_code_failure_modes.1 refusedEnv "x" none 180 0 rfl
  · exact execute_code_failure_modes.2.1 silentEnv "y" (some 3) 180 6 rfl
      (fun i => rfl) (by norm_num [effectiveTimeout])
  · exact execute_code_failure_modes.2.2 badJsonEnv "z" (some 5) 180 0
      "notjson" 0 rfl rfl (by decide) (by decide) (by decide) rfl

/-- C5: for every code string, `execute_code` transmits exactly one
complete message: the UTF-8 encoding of the JSON serialization of the
`execute_code` command envelope followed by a single newline; and the
client's connection target defaults to `localhost:9876`, both parts
overridable through the constructor. -/
theorem execute_code_wire_format (env : SocketEnv) (code : String)
    (timeout : Option Int) (selfTimeout : Int) (fuel : Nat)
    (res : ExecResult)
    (hconn : env.connectRefused = false)
    (hres : execute_code env code timeout selfTimeout fuel = some res) :
    res.sent = [utf8Encode (jsonDumps (commandJson code) ++ "\n")] ∧
    (clientInit none none none none).host = "localhost" ∧
    (clientInit none none none none).port = 9876 ∧
    (∀ h p t et, (clientInit (some h) (some p) t et).host = h ∧
      (clientInit (some h) (some p) t et).port = p) := by
  refine ⟨?_, rfl, rfl, fun h p t et => ⟨rfl, rfl⟩⟩
  rw [execute_code] at hres
  simp only [hconn, Bool.false_eq_true, if_false] at hres
  cases hb : execBody env (effectiveTimeout selfTimeout timeout) fuel with
  | none =>
    rw [hb] at hres
    exact absurd hres (by simp)
  | some p =>
    rw [hb] at hres
    cases p with
    | mk b r =>
      simp only [Option.some.injEq] at hres
      rw [← hres]

/-- Concrete instantiation of `execute_code_wire_format` on the
`badJsonEnv` run. -/
theorem execute_code_wire_format_witness :
    badJsonEnv.connectRefused = false ∧
    execute_code badJsonEnv "hi" (some 5) 180 1 =
      some ⟨false,
            ExecReport.genericError (PyExn.jsonDecodeError (pyStrip "notjson")),
            [utf8Encode (jsonDumps (commandJson "hi") ++ "\n")]⟩ ∧
    (⟨false,
      ExecReport.genericError (PyExn.jsonDecodeError (pyStrip "notjson")),
      [utf8Encode (jsonDumps (commandJson "hi") ++ "\n")]⟩ : ExecResult).sent =
      [utf8Encode (jsonDumps (commandJson "hi") ++ "\n")] ∧
    (clientInit none none none none).host = "localhost" ∧
    (clientInit none none none none).port = 9876 := by
  have hrun := execute_code_line_response badJsonEnv "hi" (some 5) 180 0
    "notjson" 0 rfl rfl (by decide) (by decide)
  have hres : execute_code badJsonEnv "hi" (some 5) 180 1 =
      some ⟨false,
            ExecReport.genericError (PyExn.jsonDecodeError (pyStrip "notjson")),
            [utf8Encode (jsonDumps (commandJson "hi") ++ "\n")]⟩ := by
    rw [hrun]
    simp [finishResponse, badJsonEnv, show pyStrip "notjson" ≠ "" by decide]
  have hmain := execute_code_wire_format badJsonEnv "hi" (some 5) 180 1 _
    rfl hres
  exact ⟨rfl, hres, hmain.1, hmain.2.1, hmain.2.2.1⟩

/-! ## The pipeline `main` (run_lego_sorter.py, lines 41-195)

Environment variables, script/file existence and the success of each
remote stage are oracles; the control flow (early returns on fatal
stages, continue on non-fatal ones, the conveyor skip, the timeouts
passed to every `run_with_retries` call) is translated directly. -/

/-- The seven scripts `main` can execute, in source order. -/
inductive Stage where
  | clear
  | bucket
  | conveyor
  | parts
  | physics
  | lighting
  | snapshot
deriving DecidableEq, Repr

/-- The environment `main` runs in. -/
structure PipelineEnv where
  isDebug : Bool
  timeoutVar : Option Int
  skipConveyor : Bool
  connectionOk : Bool
  scriptExists : Stage → Bool
  stageOk : Stage → Bool

/-- `default_timeout` (line 49): `BLENDER_MCP_TIMEOUT` through `int`,
defaulting to `30` in debug mode and `300` otherwise. -/
def defaultTimeout (env : PipelineEnv) : Int :=
  env.timeoutVar.getD (if env.isDebug then 30 else 300)

/-- Step 6 (lines 170-183): the snapshot stage passes
`max(default_timeout, 120 if is_debug else 420)`; a missing script only
prints. -/
def snapTail (env : PipelineEnv) : List (Stage × Int) :=
  if env.scriptExists Stage.snapshot = false then []
  else [(Stage.snapshot,
         max (defaultTimeout env) (if env.isDebug then 120 else 420))]

/-- Step 5 (lines 155-168): a missing lighting script only prints (no
early return); a failed run continues. -/
def lightTail (env : PipelineEnv) : List (Stage × Int) :=
  if env.scriptExists Stage.lighting = false then snapTail env
  else (Stage.lighting, defaultTimeout env) :: snapTail env

/-- Step 4 (lines 139-153): missing script returns; failure continues. -/
def physTail (env : PipelineEnv) : List (Stage × Int) :=
  if env.scriptExists Stage.physics = false then []
  else (Stage.physics, defaultTimeout env) :: lightTail env

/-- Step 3 (lines 127-137): missing script returns; failure continues. -/
def partsTail (env : PipelineEnv) : List (Stage × Int) :=
  if env.scriptExists Stage.parts = false then []
  else (Stage.parts, defaultTimeout env) :: physTail env

/-- Step 2 (lines 106-125): skipped entirely when `SKIP_CONVEYOR=1`;
missing script or failure return early. -/
def convTail (env : PipelineEnv) : List (Stage × Int) :=
  if env.skipConveyor then partsTail env
  else if env.scriptExists Stage.conveyor = false then []
  else if env.stageOk Stage.conveyor = false then
    [(Stage.conveyor, defaultTimeout env)]
  else (Stage.conveyor, defaultTimeout env) :: partsTail env

/-- The `(stage, timeout)` pairs of the `run_with_retries` calls `main`
performs, in order (lines 52-183): connection test gate, then steps 0-6
with the early-return/continue behaviour of each step. -/
def mainCalls (env : PipelineEnv) : List (Stage × Int) :=
  if env.connectionOk = false then []
  else if env.scriptExists Stage.clear = false then []
  else if env.stageOk Stage.clear = false then
    [(Stage.clear, defaultTimeout env)]
  else
    (Stage.clear, defaultTimeout env) ::
      (if env.scriptExists Stage.bucket = false then []
       else if env.stageOk Stage.bucket = false then
         [(Stage.bucket, defaultTimeout env)]
       else (Stage.bucket, defaultTimeout env) :: convTail env)

/-- Case analysis for every call `main` makes: non-snapshot stages other
than the conveyor get `default_timeout`; the conveyor additionally needs
`SKIP_CONVEYOR` unset; the snapshot gets the floored timeout. -/
theorem mem_snapTail (env : PipelineEnv) (q : Stage × Int)
    (hq : q ∈ snapTail env) :
    q.1 = Stage.snapshot ∧
      q.2 = max (defaultTimeout env) (if env.isDebug then 120 else 420) := by
  unfold snapTail at hq
  split at hq <;> simp_all

theorem mem_lightTail (env : PipelineEnv) (q : Stage × Int)
    (hq : q ∈ lightTail env) :
    q = (Stage.lighting, defaultTimeout env) ∨ q ∈ snapTail env := by
  unfold lightTail at hq
  split at hq <;> simp_all

theorem mem_physTail (env : PipelineEnv) (q : Stage × Int)
    (hq : q ∈ physTail env) :
    q = (Stage.physics, defaultTimeout env) ∨ q ∈ lightTail env := by
  unfold physTail at hq
  split at hq <;> simp_all

theorem mem_partsTail (env : PipelineEnv) (q : Stage × Int)
    (hq : q ∈ partsTail env) :
    q = (Stage.parts, defaultTimeout env) ∨ q ∈ physTail env := by
  unfold partsTail at hq
  split at hq <;> simp_all

theorem mem_convTail (env : PipelineEnv) (q : Stage × Int)
    (hq : q ∈ convTail env) :
    (q = (Stage.conveyor, defaultTimeout env) ∧ env.skipConveyor = false) ∨
      q ∈ partsTail env := by
  unfold convTail at hq
  split at hq
  · exact Or.inr hq
  · split at hq
    · simp_all
    · split at hq <;> simp_all

theorem mem_mainCalls (env : PipelineEnv) (p : Stage × Int)
    (hp : p ∈ mainCalls env) :
    p = (Stage.clear, defaultTimeout env) ∨
    p = (Stage.bucket, defaultTimeout env) ∨ p ∈ convTail env := by
  unfold mainCalls at hp
  split at hp
  · simp_all
  · split at hp
    · simp_all
    · split at hp
      · simp_all
      · simp only [List.mem_cons] at hp
        rcases hp with h | hp
        · exact Or.inl h
        · split at hp
          · simp_all
          · split at hp
            · simp_all
            · simp only [List.mem_cons] at hp
              rcases hp with h | hp
              · exact Or.inr (Or.inl h)
              · exact Or.inr (Or.inr hp)

/-- Case analysis for every call `main` makes: non-snapshot stages other
than the conveyor get `default_timeout`; the conveyor additionally needs
`SKIP_CONVEYOR` unset; the snapshot gets the floored timeout. -/
theorem mainCalls_cases (env : PipelineEnv) (p : Stage × Int)
    (hp : p ∈ mainCalls env) :
    (p.1 ≠ Stage.snapshot ∧ p.1 ≠ Stage.conveyor ∧
      p.2 = defaultTimeout env) ∨
    (p.1 = Stage.conveyor ∧ env.skipConveyor = false ∧
      p.2 = defaultTimeout env) ∨
    (p.1 = Stage.snapshot ∧
      p.2 = max (defaultTimeout env) (if env.isDebug then 120 else 420)) := by
  rcases mem_mainCalls env p hp with h | h | h
  · exact Or.inl (by simp [h])
  · exact Or.inl (by simp [h])
  rcases mem_convTail env p h with ⟨hq, hns⟩ | h
  · exact Or.inr (Or.inl (by simp [hq, hns]))
  rcases mem_partsTail env p h with hq | h
  · exact Or.inl (by simp [hq])
  rcases mem_physTail env p h with hq | h
  · exact Or.inl (by simp [hq])
  rcases mem_lightTail env p h with hq | h
  · exact Or.inl (by simp [hq])
  exact Or.inr (Or.inr (mem_snapTail env p h))

/-- Non-debug environment with `BLENDER_MCP_TIMEOUT=60`, everything
reachable and succeeding. -/
def envTimeout60 : PipelineEnv :=
  ⟨false, some 60, false, true, fun _ => true, fun _ => true⟩

/-- C6 counterexample: with `BLENDER_MCP_TIMEOUT=60` (non-debug) the
pipeline's snapshot call passes timeout `420`, whose effective per-call
timeout is `420`, not `int(V) = 60`. -/
theorem timeout_override_counterexample :
    (Stage.snapshot, (420 : Int)) ∈ mainCalls envTimeout60 ∧
    effectiveTimeout (defaultTimeout envTimeout60) (some 420) = 420 ∧
    (420 : Int) ≠ 60 := by
  refine ⟨?_, rfl, by decide⟩
  show (Stage.snapshot, (420 : Int)) ∈ mainCalls envTimeout60
  simp [mainCalls, convTail, partsTail, physTail, lightTail, snapTail,
        envTimeout60, defaultTimeout]

/-- C6 amended: with `BLENDER_MCP_TIMEOUT` an integer `V`, every
pipeline stage except the snapshot render passes `int(V)` as its
per-call timeout (and the client's effective timeout for any passed
value is that value, while `test_connection` uses the stored `int(V)`);
the snapshot render instead passes `max(int(V), 420)` (`max(int(V),
120)` in debug mode), which equals `int(V)` only when `int(V)` reaches
that floor. -/
theorem timeout_override_amended (env : PipelineEnv) (V : Int)
    (hV : env.timeoutVar = some V) :
    (∀ s t, (s, t) ∈ mainCalls env → s ≠ Stage.snapshot → t = V) ∧
    (∀ t, (Stage.snapshot, t) ∈ mainCalls env →
      t = max V (if env.isDebug then 120 else 420)) ∧
    (∀ t : Int, effectiveTimeout (defaultTimeout env) (some t) = t) ∧
    effectiveTimeout (defaultTimeout env) none = V := by
  have hdt : defaultTimeout env = V := by simp [defaultTimeout, hV]
  refine ⟨?_, ?_, fun t => rfl, by simp [effectiveTimeout, hdt]⟩
  · intro s t hmem hs
    rcases mainCalls_cases env (s, t) hmem with h | h | h
    · rw [← hdt]
      exact h.2.2
    · rw [← hdt]
      exact h.2.2
    · exact absurd h.1 hs
  · intro t hmem
    rcases mainCalls_cases env (Stage.snapshot, t) hmem with h | h | h
    · exact absurd rfl h.1
    · exact absurd h.1 (by simp)
    · rw [← hdt]
      exact h.2

/-- Concrete instantiation of `timeout_override_amended` on
`envTimeout60`. -/
theorem timeout_override_amended_witness :
    envTimeout60.timeoutVar = some 60 ∧
    ((∀ s t, (s, t) ∈ mainCalls envTimeout60 → s ≠ Stage.snapshot →
        t = 60) ∧
     (∀ t, (Stage.snapshot, t) ∈ mainCalls envTimeout60 →
        t = max 60 (if envTimeout60.isDebug then 120 else 420)) ∧
     (∀ t : Int,
        effectiveTimeout (defaultTimeout envTimeout60) (some t) = t) ∧
     effectiveTimeout (defaultTimeout envTimeout60) none = 60) :=
  ⟨rfl, timeout_override_amended envTimeout60 60 rfl⟩

/-- C7: with `SKIP_CONVEYOR` enabled, `main` never executes the conveyor
belt script, and when the connection test and every other stage succeed
with all scripts present, the remaining stages run in their usual
order. -/
theorem skip_conveyor_skips_exactly_one (env : PipelineEnv)
    (hskip : env.skipConveyor = true) :
    (∀ t, (Stage.conveyor, t) ∉ mainCalls env) ∧
    (env.connectionOk = true → (∀ s, env.scriptExists s = true) →
      (∀ s, env.stageOk s = true) →
      (mainCalls env).map Prod.fst =
        [Stage.clear, Stage.bucket, Stage.parts, Stage.physics,
         Stage.lighting, Stage.snapshot]) := by
  constructor
  · intro t hmem
    rcases mainCalls_cases env (Stage.conveyor, t) hmem with h | h | h
    · exact h.2.1 rfl
    · rw [hskip] at h
      exact absurd h.2.1 (by decide)
    · exact absurd h.1 (by simp)
  · intro hconn hex hok
    simp [mainCalls, convTail, partsTail, physTail, lightTail, snapTail,
          hconn, hex, hok, hskip]

/-- Environment with `SKIP_CONVEYOR=1`, everything else reachable and
succeeding. -/
def envSkipConveyor : PipelineEnv :=
  ⟨false, none, true, true, fun _ => true, fun _ => true⟩

/-- Concrete instantiation of `skip_conveyor_skips_exactly_one`. -/
theorem skip_conveyor_skips_exactly_one_witness :
    envSkipConveyor.skipConveyor = true ∧
    ((∀ t, (Stage.conveyor, t) ∉ mainCalls envSkipConveyor) ∧
     (envSkipConveyor.connectionOk = true →
      (∀ s, envSkipConveyor.scriptExists s = true) →
      (∀ s, envSkipConveyor.stageOk s = true) →
      (mainCalls envSkipConveyor).map Prod.fst =
        [Stage.clear, Stage.bucket, Stage.parts, Stage.physics,
         Stage.lighting, Stage.snapshot])) :=
  ⟨rfl, skip_conveyor_skips_exactly_one envSkipConveyor rfl⟩

/-! ## Snapshot outputs (blender/render_snapshot.py) and the raycast
diagnostic CSV (blender/diagnose_raycast_frame20.py)

Scene contents come from the host; only the path construction and the
file-writing order of the repository's own code are modelled. -/

/-- `REPO_ROOT` (render_snapshot.py line 27). -/
def REPO_ROOT : String := "/Users/sebastian/Repos/private/lego-sorter"

/-- `RENDERS_DIR` (line 28): `os.path.join(REPO_ROOT, "renders")`. -/
def RENDERS_DIR : String := REPO_ROOT ++ "/renders"

/-- `ORTHO_VIEWS` (lines 39-51): direction vector and tag per view. -/
def ORTHO_VIEWS : List ((ℚ × ℚ × ℚ) × String) :=
  [((0, -1, 0), "front"),
   ((0, 1, 0), "back"),
   ((-1, 0, 0), "right"),
   ((1, 0, 0), "left"),
   ((0, 0, 1), "top"),
   ((0, 0, -1), "bottom"),
   ((1, -1, 1), "iso_ne"),
   ((-1, -1, 1), "iso_nw"),
   ((1, 1, 1), "iso_se"),
   ((-1, 1, 1), "iso_sw")]

/-- `frames = [1, 5, 10, 20]` (line 410). -/
def snapshotFrames : List Nat := [1, 5, 10, 20]

/-- Python `f"\x7bframe:02d\x7d"` for nonnegative frame numbers. -/
def format02 (n : Nat) : String :=
  if n < 10 then "0" ++ toString n else toString n

/-- The PNG paths written by `main` (lines 405-436), in writing order:
nothing when there are no mesh bounds or no active scene, else one
orthographic PNG per view tag inside each per-frame subfolder. -/
def renderMainOutputs (boundsExist : Bool) (sceneExists : Bool) :
    List String :=
  if boundsExist = false then []
  else if sceneExists = false then []
  else
    (snapshotFrames.map (fun frame =>
      ORTHO_VIEWS.map (fun v =>
        RENDERS_DIR ++ "/frame_" ++ format02 frame ++ "/snapshot_ortho_"
          ++ v.2 ++ ".png"))).flatten

/-- The CSV header written first (diagnose_raycast_frame20.py line 26). -/
def diagnosticHeader : String := "PART_NAME,TOP_Z,HIT_OBJECT,GAP_m"

/-- The lines of `renders/diagnostic_frame20.csv` written by the
diagnostic `main` (lines 11-87): no file when there is no active scene;
otherwise the fixed header, then either the `NO_PARTS` row (no
`lego_parts` collection) or one row per part, whose contents come from
host raycasts (external, given as `partsRows`). -/
def diagnoseLines (sceneExists : Bool) (partsColl : Option (List String)) :
    Option (List String) :=
  if sceneExists = false then none
  else
    some (diagnosticHeader ::
      match partsColl with
      | none => ["NO_PARTS,0,None,"]
      | some rows => rows)

/-- C8: every snapshot PNG lands under the hard-coded absolute renders
directory inside a per-frame subfolder (`frame_01`, `frame_05`,
`frame_10`, `frame_20`), one orthographic PNG per view tag in each, and
whenever the raycast diagnostic CSV is written at all, its first line is
the fixed header row, whatever the scene contents. -/
theorem output_layout :
    (∀ (b s : Bool) (p : String), p ∈ renderMainOutputs b s →
      ∃ frame ∈ snapshotFrames, ∃ tag ∈ ORTHO_VIEWS.map (fun v => v.2),
        p = RENDERS_DIR ++ "/frame_" ++ format02 frame ++ "/snapshot_ortho_"
          ++ tag ++ ".png") ∧
    (snapshotFrames.map format02 = ["01", "05", "10", "20"]) ∧
    (∀ frame ∈ snapshotFrames, ∀ tag ∈ ORTHO_VIEWS.map (fun v => v.2),
      (RENDERS_DIR ++ "/frame_" ++ format02 frame ++ "/snapshot_ortho_"
          ++ tag ++ ".png") ∈ renderMainOutputs true true) ∧
    ((renderMainOutputs true true).length =
      snapshotFrames.length * (ORTHO_VIEWS.map (fun v => v.2)).length) ∧
    (∀ (sceneExists : Bool) (partsColl : Option (List String)) (ls : List String),
      diagnoseLines sceneExists partsColl = some ls →
      ls.head? = some diagnosticHeader) := by
  refine ⟨?_, by decide, ?_, by decide, ?_⟩
  · intro b s p hp
    cases b with
    | false => simp [renderMainOutputs] at hp
    | true =>
      cases s with
      | false => simp [renderMainOutputs] at hp
      | true =>
        simp only [renderMainOutputs, Bool.true_eq_false, if_false,
          List.mem_flatten, List.mem_map] at hp
        obtain ⟨l, ⟨frame, hframe, hl⟩, hpl⟩ := hp
        obtain ⟨v, hv, hpv⟩ := by
          rw [← hl] at hpl
          exact List.mem_map.mp hpl
        exact ⟨frame, hframe, v.2, List.mem_map.mpr ⟨v, hv, rfl⟩, hpv.symm⟩
  · intro frame hframe tag htag
    simp only [renderMainOutputs, Bool.true_eq_false, if_false,
      List.mem_flatten]
    refine ⟨ORTHO_VIEWS.map (fun v =>
      RENDERS_DIR ++ "/frame_" ++ format02 frame ++ "/snapshot_ortho_"
        ++ v.2 ++ ".png"), List.mem_map.mpr ⟨frame, hframe, rfl⟩, ?_⟩
    obtain ⟨v, hv, rfl⟩ := List.mem_map.mp htag
    exact List.mem_map.mpr ⟨v, hv, rfl⟩
  · intro sceneExists partsColl ls hls
    cases sceneExists with
    | false => simp [diagnoseLines] at hls
    | true =>
      simp only [diagnoseLines, Bool.true_eq_false, if_false,
        Option.some.injEq] at hls
      rw [← hls]
      rfl

/-- Concrete instantiation of `output_layout`: the first written path,
and a diagnostic file with one part row. -/
theorem output_layout_witness :
    ((RENDERS_DIR ++ "/frame_" ++ format02 1 ++ "/snapshot_ortho_front.png")
        ∈ renderMainOutputs true true) ∧
    diagnoseLines true (some ["brick_2x4,0.5,Conveyor,0.01"]) =
      some [diagnosticHeader, "brick_2x4,0.5,Conveyor,0.01"] ∧
    (diagnoseLines true (some ["brick_2x4,0.5,Conveyor,0.01"])).get!.head? =
      some diagnosticHeader := by
  refine ⟨?_, rfl, ?_⟩
  · have h := output_layout.2.2.1 1 (by decide) "front" (by decide)
    simpa using h
  · have h := output_layout.2.2.2.2 true (some ["brick_2x4,0.5,Conveyor,0.01"])
      [diagnosticHeader, "brick_2x4,0.5,Conveyor,0.01"] rfl
    exact h

/-! ## Vector helpers of render_snapshot.py (lines 78-90)

Floating point is idealised as the reals. -/

/-- A `mathutils.Vector` with three components. -/
structure Vec3 where
  x : ℝ
  y : ℝ
  z : ℝ

/-- `_length` (lines 78-84): `(x*x + y*y + z*z) ** 0.5`. -/
noncomputable def vecLength (v : Vec3) : ℝ :=
  Real.sqrt (v.x * v.x + v.y * v.y + v.z * v.z)

/-- `_normalize_vec` (lines 86-90): the zero vector below the `1e-8`
length guard, componentwise division by the length otherwise. -/
noncomputable def normalizeVec (v : Vec3) : Vec3 :=
  if vecLength v ≤ 1e-8 then ⟨0, 0, 0⟩
  else ⟨v.x / vecLength v, v.y / vecLength v, v.z / vecLength v⟩

/-- C9: `_normalize_vec` is total and never divides by zero: length at
most `1e-8` yields the zero vector (so camera placement is defined even
for a zero offset direction), and otherwise the result is the input
scaled by the reciprocal of its length — a unit vector. -/
theorem normalize_vec_total (v : Vec3) :
    (vecLength v ≤ 1e-8 → normalizeVec v = ⟨0, 0, 0⟩) ∧
    (1e-8 < vecLength v →
      normalizeVec v =
        ⟨v.x * (1 / vecLength v), v.y * (1 / vecLength v),
         v.z * (1 / vecLength v)⟩ ∧
      vecLength (normalizeVec v) = 1) := by
  constructor
  · intro h
    rw [normalizeVec, if_pos h]
  · intro h
    have hle : ¬ vecLength v ≤ 1e-8 := not_le.mpr h
    have hpos : 0 < vecLength v := lt_trans (by norm_num) h
    have hne : vecLength v ≠ 0 := ne_of_gt hpos
    have hS : (0 : ℝ) ≤ v.x * v.x + v.y * v.y + v.z * v.z :=
      add_nonneg (add_nonneg (mul_self_nonneg _) (mul_self_nonneg _))
        (mul_self_nonneg _)
    have hsq : vecLength v * vecLength v =
        v.x * v.x + v.y * v.y + v.z * v.z := Real.mul_self_sqrt hS
    constructor
    · rw [normalizeVec, if_neg hle]
      simp [div_eq_mul_inv, one_div]
    · rw [normalizeVec, if_neg hle]
      set L := vecLength v with hL
      show Real.sqrt (v.x / L * (v.x / L) + v.y / L * (v.y / L) +
        v.z / L * (v.z / L)) = 1
      have harith : v.x / L * (v.x / L) + v.y / L * (v.y / L) +
          v.z / L * (v.z / L) =
          (v.x * v.x + v.y * v.y + v.z * v.z) / (L * L) := by
        field_simp
      rw [harith, ← hsq, div_self (mul_ne_zero hne hne)]
      exact Real.sqrt_one

/-- Concrete instantiation of `normalize_vec_total` at `(3, 4, 0)`. -/
theorem normalize_vec_total_witness :
    (1e-8 : ℝ) < vecLength ⟨3, 4, 0⟩ ∧
    (normalizeVec ⟨3, 4, 0⟩ =
      ⟨3 * (1 / vecLength ⟨3, 4, 0⟩), 4 * (1 / vecLength ⟨3, 4, 0⟩),
       0 * (1 / vecLength ⟨3, 4, 0⟩)⟩ ∧
     vecLength (normalizeVec ⟨3, 4, 0⟩) = 1) := by
  have hlen : vecLength ⟨3, 4, 0⟩ = 5 := by
    rw [vecLength]
    rw [show ((3 : ℝ) * 3 + 4 * 4 + 0 * 0) = 5 ^ 2 by norm_num]
    exact Real.sqrt_sq (by norm_num)
  have h : (1e-8 : ℝ) < vecLength ⟨3, 4, 0⟩ := by
    rw [hlen]
    norm_num
  exact ⟨h, (normalize_vec_total ⟨3, 4, 0⟩).2 h⟩

/-! ## The dolly-in loop of `position_camera_to_fit_bounds`
(render_snapshot.py lines 231-265)

The projected coverage of each iteration is computed by the host's
`world_to_camera_view`, so it enters as an oracle; the loop bound, the
break conditions and the distance update are the repository's code. -/

/-- `MAX_DOLLY_STEPS` (line 23). -/
def MAX_DOLLY_STEPS : Nat := 8

/-- `TARGET_FILL` (line 22): `0.75`. -/
def TARGET_FILL : ℚ := 3 / 4

/-- What one loop iteration observes: the loop breaks when the scene is
gone or no corner projects (`stop`), else sees coverage
`fill = max(width, height)`. -/
inductive DollyObs where
  | stop
  | fill (f : ℚ)

/-- The `for _ in range(MAX_DOLLY_STEPS)` loop (lines 234-261), returning
the distance after each completed iteration.  `obs k` is iteration `k`'s
observation; an iteration with `fill ≥ TARGET_FILL` breaks, otherwise
`ratio = max(fill, 1e-3) / max(TARGET_FILL, 1e-3)`,
`step_scale = max(ratio, 0.5)` and
`distance = max(distance * step_scale, 0.05)`. -/
def dollyIter (obs : Nat → DollyObs) : Nat → Nat → ℚ → List ℚ
  | 0, _, _ => []
  | fuel + 1, k, distance =>
    match obs k with
    | DollyObs.stop => []
    | DollyObs.fill f =>
      if TARGET_FILL ≤ f then []
      else
        let ratio := max f (1/1000) / max TARGET_FILL (1/1000)
        let stepScale := max ratio (1/2)
        let distance' := max (distance * stepScale) (1/20)
        distance' :: dollyIter obs fuel (k + 1) distance'

/-- The distances after each executed dolly iteration, starting from the
initial distance `d0` computed before the loop. -/
def dollyDistances (obs : Nat → DollyObs) (d0 : ℚ) : List ℚ :=
  dollyIter obs MAX_DOLLY_STEPS 0 d0

/-- One dolly step: at least the `0.05` floor, no larger than
`max(previous, 0.05)`, produced by scaling with a factor of at least
`0.5` (and below `1`) before the floor. -/
def DollyStep (d d' : ℚ) : Prop :=
  1/20 ≤ d' ∧ d' ≤ max d (1/20) ∧
    ∃ s, 1/2 ≤ s ∧ s < 1 ∧ d' = max (d * s) (1/20)

theorem dollyIter_invariant (obs : Nat → DollyObs) :
    ∀ (fuel k : Nat) (d : ℚ),
      (dollyIter obs fuel k d).length ≤ fuel ∧
      List.Chain' DollyStep (d :: dollyIter obs fuel k d) := by
  intro fuel
  induction fuel with
  | zero =>
    intro k d
    exact ⟨Nat.le_refl 0, List.chain'_singleton d⟩
  | succ fuel ih =>
    intro k d
    rw [dollyIter]
    cases obs k with
    | stop => exact ⟨Nat.zero_le _, List.chain'_singleton d⟩
    | fill f =>
      dsimp only
      by_cases hf : TARGET_FILL ≤ f
      · rw [if_pos hf]
        exact ⟨Nat.zero_le _, List.chain'_singleton d⟩
      · rw [if_neg hf]
        have hmaxT : max TARGET_FILL (1/1000 : ℚ) = 3/4 := by
          rw [TARGET_FILL]
          norm_num
        have hratio : max f (1/1000) / max TARGET_FILL (1/1000) < 1 := by
          rw [hmaxT]
          rw [div_lt_one (by norm_num)]
          rw [TARGET_FILL] at hf
          push_neg at hf
          exact max_lt hf (by norm_num)
        have hs1 : max (max f (1/1000) / max TARGET_FILL (1/1000)) (1/2 : ℚ) < 1 :=
          max_lt hratio (by norm_num)
        have hs2 : (1/2 : ℚ) ≤ max (max f (1/1000) / max TARGET_FILL (1/1000)) (1/2) :=
          le_max_right _ _
        set s := max (max f (1/1000) / max TARGET_FILL (1/1000)) (1/2 : ℚ) with hsdef
        set d' := max (d * s) (1/20 : ℚ) with hd'
        have hstep : DollyStep d d' := by
          refine ⟨le_max_right _ _, ?_, s, hs2, hs1, rfl⟩
          rw [max_le_iff]
          constructor
          · by_cases hd : 0 < d
            · calc d * s ≤ d * 1 := by
                    exact mul_le_mul_of_nonneg_left (le_of_lt hs1) (le_of_lt hd)
                _ = d := mul_one d
                _ ≤ max d (1/20) := le_max_left _ _
            · push_neg at hd
              calc d * s ≤ 0 := mul_nonpos_of_nonpos_of_nonneg hd
                    (le_trans (by norm_num) hs2)
                _ ≤ max d (1/20) := le_trans (by norm_num) (le_max_right _ _)
          · exact le_max_right _ _
        obtain ⟨hlen, hchain⟩ := ih (k + 1) d'
        refine ⟨?_, ?_⟩
        · simpa using Nat.succ_le_succ hlen
        · exact List.chain'_cons.mpr ⟨hstep, hchain⟩

/-- C10: the dolly-in loop executes at most `MAX_DOLLY_STEPS = 8`
iterations, and after every executed iteration the maintained distance
is at least `0.05` and at most `max(previous distance, 0.05)`, each step
scaling the distance by a factor of at least `0.5` (and below `1`)
before the `0.05` floor is applied. -/
theorem dolly_loop_invariant (obs : Nat → DollyObs) (d0 : ℚ) :
    (dollyDistances obs d0).length ≤ MAX_DOLLY_STEPS ∧
    List.Chain' DollyStep (d0 :: dollyDistances obs d0) :=
  dollyIter_invariant obs MAX_DOLLY_STEPS 0 d0

end LegoSorter
